import Mathlib

/-!
Verification development for the `puccinialin` Rust-toolchain bootstrapper.

The Python sources are shallowly embedded: ambient process state (the
platform tags reported by the interpreter, the filesystem, the behaviour of
the network and of the spawned subprocesses) is passed in explicitly, and
the observable effects (lines printed to the output sink, directories
created, downloads issued, subprocesses run) are collected in traces.
-/

namespace Puccinialin

/-! ## Embedding of src/puccinialin/_target.py -/

/-- The hardcoded list of supported rustup targets (`rustup_targets` in
`_target.py`). -/
def rustup_targets : List String := [
  "aarch64-apple-darwin",
  "aarch64-linux-android",
  "aarch64-pc-windows-msvc",
  "aarch64-unknown-linux-gnu",
  "aarch64-unknown-linux-musl",
  "arm-linux-androideabi",
  "arm-unknown-linux-gnueabi",
  "arm-unknown-linux-gnueabihf",
  "armv7-linux-androideabi",
  "armv7-unknown-linux-gnueabihf",
  "i686-apple-darwin",
  "i686-linux-android",
  "i686-pc-windows-gnu",
  "i686-pc-windows-msvc",
  "i686-unknown-linux-gnu",
  "loongarch64-unknown-linux-gnu",
  "loongarch64-unknown-linux-musl",
  "mips-unknown-linux-gnu",
  "mips64-unknown-linux-gnuabi64",
  "mips64el-unknown-linux-gnuabi64",
  "mipsel-unknown-linux-gnu",
  "powerpc-unknown-linux-gnu",
  "powerpc64-unknown-linux-gnu",
  "powerpc64le-unknown-linux-gnu",
  "powerpc64le-unknown-linux-musl",
  "s390x-unknown-linux-gnu",
  "x86_64-apple-darwin",
  "x86_64-linux-android",
  "x86_64-pc-windows-gnu",
  "x86_64-pc-windows-msvc",
  "x86_64-unknown-freebsd",
  "x86_64-unknown-illumos",
  "x86_64-unknown-linux-gnu",
  "x86_64-unknown-linux-musl",
  "x86_64-unknown-netbsd"]

/-- Split a character list at every `'-'` (the only separator the source
splits on), keeping empty pieces, like Python's `str.split("-")`. -/
def splitDashChars : List Char → List (List Char)
  | [] => [[]]
  | x :: xs =>
    let rest := splitDashChars xs
    if x = '-' then [] :: rest
    else
      match rest with
      | r :: rs => (x :: r) :: rs
      | [] => [[x]]

/-- Python's `s.split("-")` (structurally recursive so it evaluates in the
kernel). -/
def pySplitDash (s : String) : List String :=
  (splitDashChars s.data).map (fun cs => String.mk cs)

/-- Whether `pat` is a prefix of `l`, as a boolean over character lists. -/
def charsStartWith : List Char → List Char → Bool
  | [], _ => true
  | _ :: _, [] => false
  | p :: ps, x :: xs => p = x && charsStartWith ps xs

/-- Whether `sub` occurs as a contiguous sublist of the second argument. -/
def charsContain (sub : List Char) : List Char → Bool
  | [] => charsStartWith sub []
  | x :: xs => charsStartWith sub (x :: xs) || charsContain sub xs

/-- Python's substring test `sub in s`. -/
def strContains (s sub : String) : Bool := charsContain sub.data s.data

/-- Rejoin split pieces with `"-"`, like Python's `"-".join`. -/
def intercalateDash : List String → String
  | [] => ""
  | [s] => s
  | s :: rest => s ++ "-" ++ intercalateDash rest

/-- Python's `s.split("-", maxsplit=2)`: at most two splits, the remainder
kept joined in the last element. -/
def splitMax2 (s : String) : List String :=
  match pySplitDash s with
  | a :: b :: c :: rest => [a, b, intercalateDash (c :: rest)]
  | parts => parts

/-- The ambient platform information `get_triple` reads:
`sysconfig.get_config_var("SOABI")`, the fallback `sysconfig.get_platform()`,
and `platform.machine()`. -/
structure PlatformInfo where
  soabi : Option String
  platform_fallback : String
  machine : String
deriving Repr, DecidableEq

/-- Result of running a piece of the Python code that may print to the
output sink, call `sys.exit(1)`, or raise an uncaught exception. -/
inductive Outcome (α : Type) where
  | ok (output : List String) (val : α)
  | exit1 (output : List String)
  | raiseValueError (output : List String) (msg : String)
deriving Repr, DecidableEq

/-- Exception message of Python's tuple-unpacking failure in `get_triple`
when a truthy SOABI contains no hyphen. -/
def unpackErrorMsg : String := "not enough values to unpack (expected 3, got 1)"

/-- The SOABI-parsing step of `get_triple` (lines 57-62 of `_target.py`):
when the SOABI has exactly one hyphen it splits as
`_python, sysconfig_platform`; otherwise `split("-", maxsplit=2)` is
unpacked into three names, which raises ValueError when the SOABI has no
hyphen at all. Returns the extracted `sysconfig_platform`. -/
def parseSoabi (soabi : String) : Except String String :=
  match splitMax2 soabi with
  | [_python, plat] => Except.ok plat
  | [_pi, _pv, plat] => Except.ok plat
  | _ => Except.error unpackErrorMsg

/-- The tag-selection step of `get_triple` (lines 54-66 of `_target.py`):
prefer a truthy SOABI (printing it and parsing out the platform part),
otherwise fall back to `sysconfig.get_platform()` (printing that). -/
def resolvePlatformTag (info : PlatformInfo) : Outcome String :=
  match info.soabi with
  | some soabi =>
    if soabi = "" then
      Outcome.ok ["Python reports platform: " ++ info.platform_fallback]
        info.platform_fallback
    else
      match parseSoabi soabi with
      | Except.ok plat => Outcome.ok ["Python reports SOABI: " ++ soabi] plat
      | Except.error msg =>
          Outcome.raiseValueError ["Python reports SOABI: " ++ soabi] msg
  | none =>
      Outcome.ok ["Python reports platform: " ++ info.platform_fallback]
        info.platform_fallback

/-- Result of the per-OS branch of `get_triple`: a computed triple, a
diagnostic printed before `sys.exit(1)`, or a raised `ValueError`. -/
inductive BranchResult where
  | ok (target : String)
  | exitWith (diag : String)
  | raiseError (msg : String)
deriving Repr, DecidableEq

/-- The literal list in the GraalPy normalization guard of `_target.py`
line 75. -/
def linux64Archs : List String := ["x86_64", "amd64", "aarch64", "arm64"]

/-- The OS-family branch of `get_triple` (lines 69-102 of `_target.py`),
mapping the sysconfig platform tag (and, for macOS, `platform.machine()`)
to a target triple or an error. -/
def computeTarget (sysconfig_platform machine : String) : BranchResult :=
  if strContains sysconfig_platform "-linux" then
    match pySplitDash sysconfig_platform with
    | [arch, linux, libc] =>
      if linux ∈ linux64Archs ∧ libc = "linux" then
        BranchResult.ok (linux ++ "-unknown-" ++ libc ++ "-" ++ "gnu")
      else if linux = "linux" then
        BranchResult.ok (arch ++ "-unknown-" ++ linux ++ "-" ++ libc)
      else
        BranchResult.exitWith ("Unrecognized linux platform " ++ sysconfig_platform)
    | _ =>
      BranchResult.exitWith ("Unrecognized linux platform " ++ sysconfig_platform)
  else if strContains sysconfig_platform "darwin" then
    if machine = "arm64" ∨ machine = "aarch64" then
      BranchResult.ok "aarch64-apple-darwin"
    else if machine = "x86_64" then
      BranchResult.ok "x86_64-apple-darwin"
    else
      BranchResult.raiseError ("Unknown macOS machine: " ++ machine)
  else if sysconfig_platform = "win-amd64" ∨ sysconfig_platform = "win_amd64" then
    BranchResult.ok "x86_64-pc-windows-msvc"
  else if sysconfig_platform = "native-x86_64-win32" then
    BranchResult.ok "x86_64-pc-windows-msvc"
  else if sysconfig_platform = "win32" then
    BranchResult.ok "i686-pc-windows-msvc"
  else
    BranchResult.exitWith ("Unsupported platform: " ++ sysconfig_platform)

/-- Full embedding of `get_triple` (`_target.py` lines 48-109): tag
selection, OS-family branch, the `Computed rustc target triple` report, and
the final membership check against `rustup_targets`. -/
def get_triple (info : PlatformInfo) : Outcome String :=
  match resolvePlatformTag info with
  | Outcome.exit1 out => Outcome.exit1 out
  | Outcome.raiseValueError out msg => Outcome.raiseValueError out msg
  | Outcome.ok out plat =>
    match computeTarget plat info.machine with
    | BranchResult.exitWith diag => Outcome.exit1 (out ++ [diag])
    | BranchResult.raiseError msg => Outcome.raiseValueError out msg
    | BranchResult.ok target =>
      if target ∈ rustup_targets then
        Outcome.ok (out ++ ["Computed rustc target triple: " ++ target]) target
      else
        Outcome.exit1 (out ++ ["Computed rustc target triple: " ++ target]
          ++ ["Target triple not supported by rustup: " ++ target])

example : get_triple ⟨some "cpython-313-x86_64-linux-gnu", "", "x86_64"⟩ =
    Outcome.ok ["Python reports SOABI: cpython-313-x86_64-linux-gnu",
      "Computed rustc target triple: x86_64-unknown-linux-gnu"]
      "x86_64-unknown-linux-gnu" := by decide

example : get_triple ⟨none, "win-amd64", "AMD64"⟩ =
    Outcome.ok ["Python reports platform: win-amd64",
      "Computed rustc target triple: x86_64-pc-windows-msvc"]
      "x86_64-pc-windows-msvc" := by decide

example : get_triple ⟨none, "native-x86_64-linux", "x86_64"⟩ =
    Outcome.ok ["Python reports platform: native-x86_64-linux",
      "Computed rustc target triple: x86_64-unknown-linux-gnu"]
      "x86_64-unknown-linux-gnu" := by decide

example : get_triple ⟨none, "darwin", "riscv64"⟩ =
    Outcome.raiseValueError ["Python reports platform: darwin"]
      "Unknown macOS machine: riscv64" := by decide

example : get_triple ⟨none, "plan9", "x86_64"⟩ =
    Outcome.exit1 ["Python reports platform: plan9",
      "Unsupported platform: plan9"] := by decide

/-! ## Embedding of the `Target` class of `_target.py` (lines 112-141)

The three methods all branch on `platform.system() == "Windows"`; the
ambient system string is passed explicitly. -/

/-- `Target.is_windows`. -/
def is_windows (system : String) : Bool := system = "Windows"

/-- `Target.exe_suffix`: `.exe` on Windows, empty elsewhere. -/
def exe_suffix (system : String) : String :=
  if system = "Windows" then ".exe" else ""

/-- `Target.env_path_separator`: `;` on Windows, `:` elsewhere. -/
def env_path_separator (system : String) : String :=
  if system = "Windows" then ";" else ":"

/-! ## Embedding of src/puccinialin/_setup_rust.py

The filesystem is a map from paths to file contents; `pathlib` joins are a
separator (`\` on Windows, `/` elsewhere) between path and component. -/

/-- A filesystem: which path holds which content (`none` = absent). -/
abbrev FS := String → Option String

/-- Write `content` at `path` (creating or truncating, like `open("wb")`
plus the subsequent writes). -/
def fsWrite (fs : FS) (path content : String) : FS :=
  fun q => if q = path then some content else fs q

/-- Remove the file at `path`. -/
def fsRemove (fs : FS) (path : String) : FS :=
  fun q => if q = path then none else fs q

/-- `os.replace(src, dst)`: atomically rename `src` onto `dst` (replacing
any existing `dst`). -/
def osReplace (fs : FS) (src dst : String) : FS :=
  match fs src with
  | some content => fsWrite (fsRemove fs src) dst content
  | none => fs

/-- `pathlib` `joinpath` rendered as a string, with the OS flavour of the
given system. -/
def pathJoin (system parent child : String) : String :=
  if system = "Windows" then parent ++ "\\" ++ child else parent ++ "/" ++ child

/-- Concatenation of all streamed chunks, in order. -/
def concatChunks : List String → String
  | [] => ""
  | c :: rest => c ++ concatChunks rest

/-- How the streamed GET body behaves: either every chunk arrives, or the
iteration raises after delivering a prefix of them (a mid-stream network
failure). -/
inductive StreamBehavior where
  | complete (chunks : List String)
  | failAfter (delivered : List String)
deriving Repr, DecidableEq

/-- Embedding of `download_rustup` (`_setup_rust.py` lines 20-58).

`tmpPath` is the uniquely-named `tmp_<token_hex>` sibling of the
destination. The temp file is opened for writing (created empty) before
`raise_for_status` runs; chunks are appended to it as they arrive; on a
non-success status or a mid-stream failure the raised exception aborts
before `os.replace`, leaving the temp file behind (`Except.error` carries
the filesystem at the abort); only on a complete transfer is the temp file
renamed onto the destination (the chmod touches mode bits only, which the
content map does not track). -/
def download_rustup (fs : FS) (outputFile tmpPath : String)
    (statusOk : Bool) (stream : StreamBehavior) : Except FS FS :=
  let fsOpened := fsWrite fs tmpPath ""
  if statusOk then
    match stream with
    | StreamBehavior.failAfter delivered =>
        Except.error (fsWrite fs tmpPath (concatChunks delivered))
    | StreamBehavior.complete chunks =>
        Except.ok (osReplace (fsWrite fs tmpPath (concatChunks chunks)) tmpPath outputFile)
  else
    Except.error fsOpened

/-- Python's f-string rendering of `os.environ.get("PATH")`: the string
itself when the variable is set, the literal `None` when it is unset. -/
def pyStr : Option String → String
  | none => "None"
  | some s => s

/-- Observable actions of a `setup_rust` run, in order. -/
inductive Event where
  | print (line : String)
  | mkdir (path : String)
  | httpDownload (url : String)
  | runInstaller (exe : String)
  | runCargoCheck
deriving Repr, DecidableEq

/-- How a run ends: the returned environment overlay, a `sys.exit(1)` from
the resolver, or an uncaught exception (ValueError, HTTPStatusError,
CalledProcessError) propagating out of `setup_rust`. -/
inductive RunResult (α : Type) where
  | ok (val : α)
  | procExit1
  | exc (msg : String)
deriving Repr, DecidableEq

/-- Trace and result of a `setup_rust` run. -/
structure SetupOutcome where
  events : List Event
  fs : FS
  result : RunResult (List (String × String))

/-- Ambient state and external behaviour a `setup_rust` run depends on:
the system name, the interpreter's platform report, the (already resolved)
installation directory, the filesystem, the random temp-name token, the
HTTP response behaviour, the exit codes of the two spawned subprocesses,
and the current `PATH` value. -/
structure SetupInput where
  system : String
  platform : PlatformInfo
  installationDir : String
  fs : FS
  tmpToken : String
  statusOk : Bool
  stream : StreamBehavior
  installerExit : Nat
  cargoExit : Nat
  envPath : Option String

/-- Path of the `rustup-init` subdirectory of the installation directory. -/
def rustupInitDir (i : SetupInput) : String :=
  pathJoin i.system i.installationDir "rustup-init"

/-- The `rustup` subdirectory (becomes `RUST_HOME`). -/
def rustupHome (i : SetupInput) : String :=
  pathJoin i.system i.installationDir "rustup"

/-- The `cargo` subdirectory (becomes `CARGO_HOME`). -/
def cargoHome (i : SetupInput) : String :=
  pathJoin i.system i.installationDir "cargo"

/-- Destination path of the downloaded bootstrapper:
`<installation_dir>/rustup-init/rustup-init` plus the executable suffix
(`with_suffix` on a dotless name appends the suffix). -/
def rustupInitFile (i : SetupInput) : String :=
  pathJoin i.system (rustupInitDir i) "rustup-init" ++ exe_suffix i.system

/-- The fixed upstream URL template instantiated with the triple and the
executable suffix (`_setup_rust.py` line 117). -/
def downloadUrl (i : SetupInput) (triple : String) : String :=
  "https://static.rust-lang.org/rustup/dist/" ++ triple ++ "/rustup-init"
    ++ exe_suffix i.system

/-- The `PATH` value of the overlay (`_setup_rust.py` line 126):
`<cargo_home>/bin`, the OS path-list separator, then the f-string rendering
of the current `PATH`. -/
def overlayPath (i : SetupInput) : String :=
  pathJoin i.system (cargoHome i) "bin" ++ env_path_separator i.system
    ++ pyStr i.envPath

/-- The environment overlay dict built at `_setup_rust.py` lines 127-131. -/
def overlayEnv (i : SetupInput) : List (String × String) :=
  [("RUST_HOME", rustupHome i), ("CARGO_HOME", cargoHome i),
    ("PATH", overlayPath i)]

/-- Steps 3 and 4 of `setup_rust` (`_setup_rust.py` lines 122-135):
`install_rust` (its `Installing rust to` banner, the bootstrapper
subprocess, whose non-zero exit raises CalledProcessError out of
`check_call`), then the overlay computation and the `cargo --version`
self-check (again via `check_call`). -/
def installAndCheck (i : SetupInput) (ev : List Event) (fs : FS) : SetupOutcome :=
  let ev1 := ev ++ [Event.print ("Installing rust to " ++ rustupHome i),
    Event.runInstaller (rustupInitFile i)]
  if i.installerExit ≠ 0 then
    { events := ev1, fs := fs,
      result := RunResult.exc "CalledProcessError: rustup-init" }
  else
    let ev2 := ev1 ++ [Event.print "Checking if cargo is installed",
      Event.runCargoCheck]
    if i.cargoExit ≠ 0 then
      { events := ev2, fs := fs,
        result := RunResult.exc "CalledProcessError: cargo --version" }
    else
      { events := ev2, fs := fs, result := RunResult.ok (overlayEnv i) }

/-- Events of `setup_rust` steps 1-2 before the download decision: the
installation-directory banner and the three
`mkdir(parents=True, exist_ok=True)` calls exactly as the source performs
them (`_setup_rust.py` lines 105-111: the third call is on `rustup_home`
again — `cargo_home` is never created). -/
def setupEvPre (i : SetupInput) (ev0 : List Event) : List Event :=
  ev0 ++ [Event.print ("Installation directory: " ++ i.installationDir),
    Event.mkdir (rustupInitDir i), Event.mkdir (rustupHome i),
    Event.mkdir (rustupHome i)]

/-- Events up to and including the network fetch of the bootstrapper. -/
def setupEvDl (i : SetupInput) (ev0 : List Event) (triple : String) : List Event :=
  setupEvPre i ev0
    ++ [Event.print ("Downloading rustup-init from " ++ downloadUrl i triple),
      Event.httpDownload (downloadUrl i triple)]

/-- The uniquely-named download temp file `tmp_<token_hex(16)>`, a sibling
of the destination (`_setup_rust.py` line 34). -/
def tmpPathOf (i : SetupInput) : String :=
  pathJoin i.system (rustupInitDir i) ("tmp_" ++ i.tmpToken)

/-- The body of `setup_rust` after the target triple has been resolved
(`_setup_rust.py` lines 105-135): directory creation, then the download
step (skipped when the destination file already exists), then install and
self-check. -/
def setupAfterTriple (i : SetupInput) (ev0 : List Event) (triple : String) : SetupOutcome :=
  if (i.fs (rustupInitFile i)).isSome then
    installAndCheck i (setupEvPre i ev0 ++ [Event.print "Rustup already downloaded"]) i.fs
  else
    match download_rustup i.fs (rustupInitFile i) (tmpPathOf i) i.statusOk i.stream with
    | Except.error fsFailed =>
        { events := setupEvDl i ev0 triple, fs := fsFailed,
          result := RunResult.exc "HTTPError" }
    | Except.ok fsDone => installAndCheck i (setupEvDl i ev0 triple) fsDone

/-- Embedding of `setup_rust` (`_setup_rust.py` lines 85-135). A failing
`get_triple` ends the run before any filesystem step; its printed lines are
the only events. -/
def setup_rust (i : SetupInput) : SetupOutcome :=
  match get_triple i.platform with
  | Outcome.exit1 out =>
      { events := out.map Event.print, fs := i.fs, result := RunResult.procExit1 }
  | Outcome.raiseValueError out msg =>
      { events := out.map Event.print, fs := i.fs, result := RunResult.exc msg }
  | Outcome.ok out triple => setupAfterTriple i (out.map Event.print) triple

/-! ## Embedding of src/puccinialin/__main__.py -/

/-- Where `main` delivers the JSON result. -/
inductive JsonSink where
  | toFile (path : String)
  | toStdout
deriving Repr, DecidableEq

/-- Embedding of `main` (`__main__.py` lines 10-27): run `setup_rust`; only
when it returns an overlay is the JSON written — to `--info-json` when
given, to standard output otherwise. A resolver exit or a propagated
exception terminates the process before any JSON output. -/
def mainRun (i : SetupInput) (infoJsonArg : Option String) :
    SetupOutcome × Option JsonSink :=
  match (setup_rust i).result with
  | RunResult.ok _ =>
    (setup_rust i, some (match infoJsonArg with
      | some p => JsonSink.toFile p
      | none => JsonSink.toStdout))
  | _ => (setup_rust i, none)

/-! ## Helper lemmas -/

/-- Reassociation of the literal pieces of the normalized linux triple. -/
lemma append_unknown_gnu (l : String) :
    l ++ "-unknown-" ++ "linux" ++ "-" ++ "gnu" = l ++ "-unknown-linux-gnu" := by
  simp only [String.append_assoc]
  rfl

/-- Reassociation of the literal pieces of the standard linux triple. -/
lemma append_unknown_linux (arch libc : String) :
    arch ++ "-unknown-" ++ "linux" ++ "-" ++ libc = arch ++ "-unknown-linux-" ++ libc := by
  apply String.ext
  simp only [String.data_append, List.append_assoc]
  rfl

/-- The only exception `parseSoabi` can raise is the tuple-unpacking
ValueError. -/
lemma parseSoabi_error {soabi msg : String}
    (h : parseSoabi soabi = Except.error msg) : msg = unpackErrorMsg := by
  unfold parseSoabi at h
  split at h <;> simp_all

/-- Tag selection never exits the process by itself. -/
lemma resolvePlatformTag_ne_exit1 (info : PlatformInfo) (out : List String) :
    resolvePlatformTag info ≠ Outcome.exit1 out := by
  intro h
  unfold resolvePlatformTag at h
  split at h
  · split at h
    · simp at h
    · split at h <;> simp at h
  · simp at h

/-- The only exception tag selection can raise is the unpacking ValueError. -/
lemma resolvePlatformTag_raise {info : PlatformInfo} {out : List String}
    {msg : String} (h : resolvePlatformTag info = Outcome.raiseValueError out msg) :
    msg = unpackErrorMsg := by
  unfold resolvePlatformTag at h
  split at h
  · split at h
    · simp at h
    · split at h
      · simp at h
      · next hpe =>
          simp only [Outcome.raiseValueError.injEq] at h
          exact h.2 ▸ parseSoabi_error hpe
  · simp at h

/-- Every `exitWith` diagnostic of the OS-family branch is either the
unrecognized-linux or the unsupported-platform message about the tag. -/
lemma computeTarget_exit_shape {plat machine diag : String}
    (h : computeTarget plat machine = BranchResult.exitWith diag) :
    diag = "Unrecognized linux platform " ++ plat
      ∨ diag = "Unsupported platform: " ++ plat := by
  unfold computeTarget at h
  split at h
  · split at h
    · split at h
      · simp at h
      · split at h
        · simp at h
        · simp only [BranchResult.exitWith.injEq] at h
          exact Or.inl h.symm
    · simp only [BranchResult.exitWith.injEq] at h
      exact Or.inl h.symm
  · split at h
    · split at h
      · simp at h
      · split at h <;> simp at h
    · split at h
      · simp at h
      · split at h
        · simp at h
        · split at h
          · simp at h
          · simp only [BranchResult.exitWith.injEq] at h
            exact Or.inr h.symm

/-- The only exception the OS-family branch can raise is the
unknown-macOS-machine ValueError about the reported machine. -/
lemma computeTarget_raise_shape {plat machine msg : String}
    (h : computeTarget plat machine = BranchResult.raiseError msg) :
    msg = "Unknown macOS machine: " ++ machine := by
  unfold computeTarget at h
  split at h
  · split at h
    · split at h
      · simp at h
      · split at h <;> simp at h
    · simp at h
  · split at h
    · split at h
      · simp at h
      · split at h
        · simp at h
        · simp only [BranchResult.raiseError.injEq] at h
          exact h.symm
    · split at h
      · simp at h
      · split at h
        · simp at h
        · split at h <;> simp at h

/-- A linux-family tag that does not split into exactly three parts is
rejected with the unrecognized-linux diagnostic. -/
lemma computeTarget_linux_of_ne3 {plat : String} (machine : String)
    (hlin : strContains plat "-linux" = true)
    (hlen : (pySplitDash plat).length ≠ 3) :
    computeTarget plat machine =
      BranchResult.exitWith ("Unrecognized linux platform " ++ plat) := by
  unfold computeTarget
  rw [if_pos hlin]
  split
  · next a l c heq => exact absurd (by simp [heq]) hlen
  · rfl

/-- A linux-family tag the OS branch accepts split into exactly three
parts. -/
lemma computeTarget_linux_ok_len {plat machine t : String}
    (hlin : strContains plat "-linux" = true)
    (h : computeTarget plat machine = BranchResult.ok t) :
    (pySplitDash plat).length = 3 := by
  by_contra hlen
  rw [computeTarget_linux_of_ne3 machine hlin hlen] at h
  simp at h

/-- The GraalPy normalization case of the linux branch. -/
lemma computeTarget_linux_norm {plat : String} (machine : String)
    {arch l : String} (hlin : strContains plat "-linux" = true)
    (hsp : pySplitDash plat = [arch, l, "linux"]) (h64 : l ∈ linux64Archs) :
    computeTarget plat machine = BranchResult.ok (l ++ "-unknown-linux-gnu") := by
  unfold computeTarget
  rw [if_pos hlin, hsp]
  dsimp only
  rw [if_pos ⟨h64, rfl⟩]
  rw [append_unknown_gnu]

/-- The standard linux decomposition case. -/
lemma computeTarget_linux_std {plat : String} (machine : String)
    {arch libc : String} (hlin : strContains plat "-linux" = true)
    (hsp : pySplitDash plat = [arch, "linux", libc]) :
    computeTarget plat machine =
      BranchResult.ok (arch ++ "-unknown-linux-" ++ libc) := by
  unfold computeTarget
  rw [if_pos hlin, hsp]
  dsimp only
  rw [if_neg (by simp [linux64Archs]), if_pos rfl]
  rw [append_unknown_linux]

/-- The rejecting linux decomposition case. -/
lemma computeTarget_linux_rej {plat : String} (machine : String)
    {arch l libc : String} (hlin : strContains plat "-linux" = true)
    (hsp : pySplitDash plat = [arch, l, libc]) (hne : l ≠ "linux")
    (hnot : ¬(l ∈ linux64Archs ∧ libc = "linux")) :
    computeTarget plat machine =
      BranchResult.exitWith ("Unrecognized linux platform " ++ plat) := by
  unfold computeTarget
  rw [if_pos hlin, hsp]
  dsimp only
  rw [if_neg hnot, if_neg hne]

/-- The install-and-check phase returns an overlay exactly when both
subprocesses exit zero, and then the overlay is `overlayEnv`. -/
lemma installAndCheck_ok {i : SetupInput} {ev : List Event} {fs0 : FS}
    {env : List (String × String)}
    (h : (installAndCheck i ev fs0).result = RunResult.ok env) :
    env = overlayEnv i ∧ i.installerExit = 0 ∧ i.cargoExit = 0 := by
  unfold installAndCheck at h
  split at h
  · simp at h
  · split at h
    · simp at h
    · simp_all

/-- The install-and-check phase never touches the filesystem. -/
lemma installAndCheck_fs (i : SetupInput) (ev : List Event) (fs0 : FS) :
    (installAndCheck i ev fs0).fs = fs0 := by
  unfold installAndCheck
  split
  · rfl
  · split <;> rfl

/-- The install-and-check phase issues no download. -/
lemma installAndCheck_no_http {i : SetupInput} {ev : List Event} {fs0 : FS}
    {u : String} (h : Event.httpDownload u ∈ (installAndCheck i ev fs0).events) :
    Event.httpDownload u ∈ ev := by
  unfold installAndCheck at h
  split at h
  · simp at h
    exact h
  · split at h <;> (simp at h; exact h)

/-- A `setup_rust` run returns an overlay only when the resolver succeeded
and both subprocesses exited zero, and then the overlay is `overlayEnv`. -/
lemma setup_rust_ok {i : SetupInput} {env : List (String × String)}
    (h : (setup_rust i).result = RunResult.ok env) :
    env = overlayEnv i ∧ i.installerExit = 0 ∧ i.cargoExit = 0 := by
  unfold setup_rust at h
  split at h
  · simp at h
  · simp at h
  · unfold setupAfterTriple at h
    split at h
    · exact installAndCheck_ok h
    · split at h
      · simp at h
      · exact installAndCheck_ok h

/-! ## Sample runs used by the witnesses -/

/-- A glibc x86_64 Linux host whose cache already holds the bootstrapper,
with both subprocesses succeeding and `PATH` set. -/
def sampleLinux : SetupInput := {
  system := "Linux"
  platform := ⟨some "cpython-313-x86_64-linux-gnu", "", "x86_64"⟩
  installationDir := "/cache/pucc"
  fs := fun p => if p = "/cache/pucc/rustup-init/rustup-init" then some "ELF" else none
  tmpToken := "ab"
  statusOk := true
  stream := StreamBehavior.complete []
  installerExit := 0
  cargoExit := 0
  envPath := some "/usr/bin" }

/-- The same host with the `PATH` environment variable unset. -/
def sampleNoPath : SetupInput := { sampleLinux with envPath := none }

/-- The same host with the bootstrapper subprocess exiting non-zero. -/
def sampleFail : SetupInput := { sampleLinux with installerExit := 1 }

/-- Recognizer for directory-creation events. -/
def isMkdir : Event → Bool
  | Event.mkdir _ => true
  | _ => false

/-! ## Claims -/

/-- C1: for every platform input, `get_triple` returns a triple only when
that triple is a member of the hardcoded `rustup_targets` list; every other
outcome is a `sys.exit(1)` or an uncaught exception, both of which
terminate the process with a non-zero status, so no triple outside the set
is ever returned. -/
theorem c1_triple_only_from_supported_set (info : PlatformInfo)
    (out : List String) (t : String)
    (h : get_triple info = Outcome.ok out t) : t ∈ rustup_targets := by
  unfold get_triple at h
  split at h
  · simp at h
  · simp at h
  · split at h
    · simp at h
    · simp at h
    · split at h
      · next hmem =>
          simp only [Outcome.ok.injEq] at h
          exact h.2 ▸ hmem
      · simp at h

/-- Witness for C1 at the 32-bit Windows tag. -/
theorem c1_witness :
    get_triple ⟨none, "win32", "x86"⟩ = Outcome.ok
      ["Python reports platform: win32",
        "Computed rustc target triple: i686-pc-windows-msvc"]
      "i686-pc-windows-msvc"
    ∧ "i686-pc-windows-msvc" ∈ rustup_targets :=
  ⟨by decide, c1_triple_only_from_supported_set ⟨none, "win32", "x86"⟩
    ["Python reports platform: win32",
      "Computed rustc target triple: i686-pc-windows-msvc"]
    "i686-pc-windows-msvc" (by decide)⟩

/-- C5: on a linux-family tag the branch accepts only three-part
decompositions; a middle part naming a known 64-bit architecture with the
third part `linux` (no explicit libc) is normalized to glibc, giving
`<arch>-unknown-linux-gnu`; a decomposition `<arch>-linux-<libc>` gives
`<arch>-unknown-linux-<libc>`; every other decomposition is rejected with
the unrecognized-linux-platform error exit. -/
theorem c5_linux_branch (plat machine : String)
    (hlin : strContains plat "-linux" = true) :
    (∀ t, computeTarget plat machine = BranchResult.ok t →
      (pySplitDash plat).length = 3)
    ∧ (∀ arch l, pySplitDash plat = [arch, l, "linux"] → l ∈ linux64Archs →
      computeTarget plat machine = BranchResult.ok (l ++ "-unknown-linux-gnu"))
    ∧ (∀ arch libc, pySplitDash plat = [arch, "linux", libc] →
      computeTarget plat machine = BranchResult.ok (arch ++ "-unknown-linux-" ++ libc))
    ∧ (∀ arch l libc, pySplitDash plat = [arch, l, libc] → l ≠ "linux" →
      ¬(l ∈ linux64Archs ∧ libc = "linux") →
      computeTarget plat machine =
        BranchResult.exitWith ("Unrecognized linux platform " ++ plat))
    ∧ ((pySplitDash plat).length ≠ 3 →
      computeTarget plat machine =
        BranchResult.exitWith ("Unrecognized linux platform " ++ plat)) := by
  refine ⟨?_, ?_, ?_, ?_, ?_⟩
  · intro t ht
    exact computeTarget_linux_ok_len hlin ht
  · intro arch l hsp h64
    exact computeTarget_linux_norm machine hlin hsp h64
  · intro arch libc hsp
    exact computeTarget_linux_std machine hlin hsp
  · intro arch l libc hsp hne hnot
    exact computeTarget_linux_rej machine hlin hsp hne hnot
  · intro hlen
    exact computeTarget_linux_of_ne3 machine hlin hlen

/-- Witness for C5 at the GraalPy tag `native-x86_64-linux`. -/
theorem c5_witness :
    strContains "native-x86_64-linux" "-linux" = true
    ∧ pySplitDash "native-x86_64-linux" = ["native", "x86_64", "linux"]
    ∧ "x86_64" ∈ linux64Archs
    ∧ computeTarget "native-x86_64-linux" "x86_64" =
        BranchResult.ok "x86_64-unknown-linux-gnu" :=
  ⟨by decide, by decide, by decide,
    (c5_linux_branch "native-x86_64-linux" "x86_64" (by decide)).2.1
      "native" "x86_64" (by decide) (by decide)⟩

/-- C9 counterexample: the two-segment tag `win-amd64` is not an error —
the resolver processes it to a supported triple — refuting the claim that
every tag with a segment count other than one or three terminates with an
unrecognized-platform diagnostic. -/
theorem c9_counterexample :
    (pySplitDash "win-amd64").length = 2
    ∧ get_triple ⟨none, "win-amd64", "AMD64"⟩ =
        Outcome.ok ["Python reports platform: win-amd64",
          "Computed rustc target triple: x86_64-pc-windows-msvc"]
          "x86_64-pc-windows-msvc" := by
  exact ⟨by decide, by decide⟩

/-- C9 (amended): only linux-family tags (those containing `-linux`) are
subject to a segment-count check — they must split into exactly three
hyphen-separated segments, and any other count exits with the
unrecognized-linux-platform diagnostic; tags without `-linux` are matched
by substring and literal rules regardless of segment count. -/
theorem c9_amended_linux_shape (plat machine : String)
    (hlin : strContains plat "-linux" = true)
    (hlen : (pySplitDash plat).length ≠ 3) :
    get_triple ⟨none, plat, machine⟩ =
      Outcome.exit1 ["Python reports platform: " ++ plat,
        "Unrecognized linux platform " ++ plat] := by
  unfold get_triple
  have hr : resolvePlatformTag ⟨none, plat, machine⟩ =
      Outcome.ok ["Python reports platform: " ++ plat] plat := rfl
  rw [hr]
  dsimp only
  rw [computeTarget_linux_of_ne3 machine hlin hlen]
  rfl

/-- Witness for the amended C9 at the two-segment linux tag `foo-linux`. -/
theorem c9_amended_witness :
    strContains "foo-linux" "-linux" = true
    ∧ (pySplitDash "foo-linux").length ≠ 3
    ∧ get_triple ⟨none, "foo-linux", "x86_64"⟩ =
        Outcome.exit1 ["Python reports platform: foo-linux",
          "Unrecognized linux platform foo-linux"] :=
  ⟨by decide, by decide,
    c9_amended_linux_shape "foo-linux" "x86_64" (by decide) (by decide)⟩

/-- C8 counterexample: on a macOS tag with an unrecognized machine
architecture the resolver raises a ValueError; the only line written to the
output sink is the platform report — no failure diagnostic is emitted to
the sink before the run dies, refuting the claim for this failure class. -/
theorem c8_counterexample :
    get_triple ⟨none, "darwin", "riscv64"⟩ =
      Outcome.raiseValueError ["Python reports platform: darwin"]
        "Unknown macOS machine: riscv64" := by
  decide

/-- C8 (amended): every `sys.exit(1)` failure of the resolver prints, as
its final sink line, one of the three diagnostics (unrecognized linux
platform, unsupported platform, or target not supported by rustup); the
unknown-macOS-machine and SOABI-unpacking failures instead raise an
exception carrying the information in its message, with no diagnostic
written to the sink. -/
theorem c8_amended_diagnostics (info : PlatformInfo) :
    (∀ out, get_triple info = Outcome.exit1 out →
      ∃ rest d, out = rest ++ [d]
        ∧ ((∃ p, d = "Unrecognized linux platform " ++ p)
          ∨ (∃ p, d = "Unsupported platform: " ++ p)
          ∨ (∃ t, d = "Target triple not supported by rustup: " ++ t)))
    ∧ (∀ out msg, get_triple info = Outcome.raiseValueError out msg →
      (∃ m, msg = "Unknown macOS machine: " ++ m) ∨ msg = unpackErrorMsg) := by
  constructor
  · intro out h
    unfold get_triple at h
    split at h
    · next hr => exact absurd hr (resolvePlatformTag_ne_exit1 info _)
    · simp at h
    · split at h
      · next hct =>
          simp only [Outcome.exit1.injEq] at h
          rcases computeTarget_exit_shape hct with hd | hd
          · exact ⟨_, _, h.symm, Or.inl ⟨_, hd⟩⟩
          · exact ⟨_, _, h.symm, Or.inr (Or.inl ⟨_, hd⟩)⟩
      · simp at h
      · split at h
        · simp at h
        · simp only [Outcome.exit1.injEq] at h
          exact ⟨_, _, h.symm, Or.inr (Or.inr ⟨_, rfl⟩)⟩
  · intro out msg h
    unfold get_triple at h
    split at h
    · simp at h
    · next hr =>
        simp only [Outcome.raiseValueError.injEq] at h
        exact Or.inr (h.2 ▸ resolvePlatformTag_raise hr)
    · split at h
      · simp at h
      · next hct =>
          simp only [Outcome.raiseValueError.injEq] at h
          exact Or.inl ⟨_, h.2 ▸ computeTarget_raise_shape hct⟩
      · split at h <;> simp at h

/-- Witness for the amended C8 at the unsupported tag `plan9`. -/
theorem c8_amended_witness :
    ∃ rest d,
      ["Python reports platform: plan9", "Unsupported platform: plan9"] = rest ++ [d]
      ∧ ((∃ p, d = "Unrecognized linux platform " ++ p)
        ∨ (∃ p, d = "Unsupported platform: " ++ p)
        ∨ (∃ t, d = "Target triple not supported by rustup: " ++ t)) :=
  (c8_amended_diagnostics ⟨none, "plan9", "x86_64"⟩).1
    ["Python reports platform: plan9", "Unsupported platform: plan9"] (by decide)

/-- C2: the downloader is transactional — on any failure (non-success HTTP
status or mid-stream abort) every path other than the unique temp file is
untouched, so nothing ever becomes visible at the destination; a successful
return happens only with a passing status check and a complete stream, and
then the destination holds exactly the concatenation of all chunks and the
temp file is gone. -/
theorem c2_transactional_download (fs : FS) (outputFile tmpPath : String)
    (statusOk : Bool) (stream : StreamBehavior)
    (hne : tmpPath ≠ outputFile) :
    (∀ fsA, download_rustup fs outputFile tmpPath statusOk stream = Except.error fsA →
      ∀ p, p ≠ tmpPath → fsA p = fs p)
    ∧ (∀ fsB, download_rustup fs outputFile tmpPath statusOk stream = Except.ok fsB →
      statusOk = true
      ∧ ∃ chunks, stream = StreamBehavior.complete chunks
        ∧ fsB outputFile = some (concatChunks chunks)
        ∧ fsB tmpPath = none
        ∧ ∀ p, p ≠ tmpPath → p ≠ outputFile → fsB p = fs p) := by
  constructor
  · intro fsA h p hp
    unfold download_rustup at h
    split at h
    · split at h
      · simp only [Except.error.injEq] at h
        subst h
        simp [fsWrite, hp]
      · simp at h
    · simp only [Except.error.injEq] at h
      subst h
      simp [fsWrite, hp]
  · intro fsB h
    unfold download_rustup at h
    split at h
    · next hst =>
        split at h
        · simp at h
        · next chunks =>
            simp only [Except.ok.injEq] at h
            subst h
            refine ⟨hst, chunks, rfl, ?_, ?_, ?_⟩
            · simp [osReplace, fsWrite, fsRemove]
            · simp [osReplace, fsWrite, fsRemove, hne]
            · intro p hp hpo
              simp [osReplace, fsWrite, fsRemove, hp, hpo]
    · simp at h

/-- Witness for C2: a failing status check leaves the (initially absent)
destination absent, with only the temp file created. -/
theorem c2_witness :
    ("d/tmp_ab" : String) ≠ "d/rustup-init"
    ∧ fsWrite (fun _ => none) "d/tmp_ab" "" "d/rustup-init" = none := by
  refine ⟨by decide, ?_⟩
  have h := (c2_transactional_download (fun _ => none) "d/rustup-init" "d/tmp_ab"
      false (StreamBehavior.complete []) (by decide)).1
      (fsWrite (fun _ => none) "d/tmp_ab" "") rfl "d/rustup-init" (by decide)
  exact h

/-- C3: on every successful run the returned overlay's `PATH` is exactly
the cargo home's `bin` subdirectory, then the OS path-list separator (`;`
on Windows, `:` elsewhere), then the original `PATH` value unchanged. -/
theorem c3_overlay_path (i : SetupInput) (env : List (String × String))
    (p : String) (hp : i.envPath = some p)
    (h : (setup_rust i).result = RunResult.ok env) :
    env = [("RUST_HOME", rustupHome i), ("CARGO_HOME", cargoHome i),
      ("PATH", pathJoin i.system (cargoHome i) "bin"
        ++ env_path_separator i.system ++ p)]
    ∧ (i.system = "Windows" → env_path_separator i.system = ";")
    ∧ (i.system ≠ "Windows" → env_path_separator i.system = ":") := by
  refine ⟨?_, ?_, ?_⟩
  · have he := (setup_rust_ok h).1
    rw [he]
    unfold overlayEnv overlayPath
    rw [hp]
    rfl
  · intro hw
    unfold env_path_separator
    rw [if_pos hw]
  · intro hw
    unfold env_path_separator
    rw [if_neg hw]

/-- Witness for C3 on the sample Linux run. -/
theorem c3_witness :
    sampleLinux.envPath = some "/usr/bin"
    ∧ (setup_rust sampleLinux).result = RunResult.ok
        [("RUST_HOME", "/cache/pucc/rustup"), ("CARGO_HOME", "/cache/pucc/cargo"),
          ("PATH", "/cache/pucc/cargo/bin:/usr/bin")]
    ∧ [(("RUST_HOME" : String), ("/cache/pucc/rustup" : String)),
        ("CARGO_HOME", "/cache/pucc/cargo"),
        ("PATH", "/cache/pucc/cargo/bin:/usr/bin")] =
      [("RUST_HOME", rustupHome sampleLinux), ("CARGO_HOME", cargoHome sampleLinux),
        ("PATH", pathJoin sampleLinux.system (cargoHome sampleLinux) "bin"
          ++ env_path_separator sampleLinux.system ++ "/usr/bin")] := by
  refine ⟨rfl, by decide, ?_⟩
  exact (c3_overlay_path sampleLinux
    [("RUST_HOME", "/cache/pucc/rustup"), ("CARGO_HOME", "/cache/pucc/cargo"),
      ("PATH", "/cache/pucc/cargo/bin:/usr/bin")] "/usr/bin" rfl (by decide)).1

/-- C4 (code bug): `setup_rust` performs its directory creation as
`mkdir` on `rustup-init`, then twice on `rustup` — the `cargo`
subdirectory is never created, because line 111 of `_setup_rust.py` calls
`rustup_home.mkdir` a second time instead of `cargo_home.mkdir`. -/
theorem c4_cargo_mkdir_missing :
    ((setup_rust sampleLinux).events.filter isMkdir) =
      [Event.mkdir "/cache/pucc/rustup-init", Event.mkdir "/cache/pucc/rustup",
        Event.mkdir "/cache/pucc/rustup"]
    ∧ Event.mkdir "/cache/pucc/cargo" ∉ (setup_rust sampleLinux).events := by
  exact ⟨by decide, by decide⟩

/-- C6: when a file is already present at the bootstrapper destination,
the run issues no network fetch and leaves the whole filesystem (hence the
existing file) unchanged. -/
theorem c6_skip_download (i : SetupInput)
    (h : (i.fs (rustupInitFile i)).isSome = true) :
    (∀ u, Event.httpDownload u ∉ (setup_rust i).events)
    ∧ (setup_rust i).fs = i.fs := by
  constructor
  · intro u hu
    unfold setup_rust at hu
    split at hu
    · simp at hu
    · simp at hu
    · unfold setupAfterTriple at hu
      rw [if_pos h] at hu
      have h2 := installAndCheck_no_http hu
      simp [setupEvPre] at h2
  · unfold setup_rust
    split
    · rfl
    · rfl
    · unfold setupAfterTriple
      rw [if_pos h]
      exact installAndCheck_fs ..

/-- Witness for C6 on the sample run whose cache holds the bootstrapper. -/
theorem c6_witness :
    (sampleLinux.fs (rustupInitFile sampleLinux)).isSome = true
    ∧ Event.httpDownload (downloadUrl sampleLinux "x86_64-unknown-linux-gnu")
        ∉ (setup_rust sampleLinux).events
    ∧ (setup_rust sampleLinux).fs = sampleLinux.fs := by
  have h := c6_skip_download sampleLinux (by decide)
  exact ⟨by decide, h.1 _, h.2⟩

/-- C7: whenever the bootstrapper subprocess exits non-zero, `setup_rust`
never returns an overlay — the run ends in a propagated error — and the
CLI writes no JSON, neither to the `--info-json` file nor to standard
output. -/
theorem c7_installer_failure_no_json (i : SetupInput) (arg : Option String)
    (h : i.installerExit ≠ 0) :
    (∀ env, (setup_rust i).result ≠ RunResult.ok env)
    ∧ ((setup_rust i).result = RunResult.procExit1
      ∨ ∃ msg, (setup_rust i).result = RunResult.exc msg)
    ∧ (mainRun i arg).2 = none := by
  have hnok : ∀ env, (setup_rust i).result ≠ RunResult.ok env := by
    intro env hok
    exact h (setup_rust_ok hok).2.1
  refine ⟨hnok, ?_, ?_⟩
  · cases hres : (setup_rust i).result with
    | ok env => exact absurd hres (hnok env)
    | procExit1 => exact Or.inl rfl
    | exc msg => exact Or.inr ⟨msg, rfl⟩
  · unfold mainRun
    split
    · next val heq => exact absurd heq (hnok val)
    · rfl

/-- Witness for C7 on the sample run with a failing bootstrapper. -/
theorem c7_witness :
    sampleFail.installerExit ≠ 0
    ∧ (setup_rust sampleFail).result = RunResult.exc "CalledProcessError: rustup-init"
    ∧ (mainRun sampleFail (some "info.json")).2 = none := by
  refine ⟨by decide, by decide, ?_⟩
  exact (c7_installer_failure_no_json sampleFail (some "info.json") (by decide)).2.2

/-- C10: when `PATH` is unset, a successful run still returns an overlay,
whose `PATH` value ends, after the separator, with the literal string
`None` — Python's rendering of `os.environ.get("PATH")` when absent. -/
theorem c10_unset_path_renders_none (i : SetupInput)
    (env : List (String × String)) (hp : i.envPath = none)
    (h : (setup_rust i).result = RunResult.ok env) :
    env = [("RUST_HOME", rustupHome i), ("CARGO_HOME", cargoHome i),
      ("PATH", pathJoin i.system (cargoHome i) "bin"
        ++ env_path_separator i.system ++ "None")] := by
  have he := (setup_rust_ok h).1
  rw [he]
  unfold overlayEnv overlayPath
  rw [hp]
  rfl

/-- Witness for C10 on the sample run with `PATH` unset. -/
theorem c10_witness :
    sampleNoPath.envPath = none
    ∧ (setup_rust sampleNoPath).result = RunResult.ok
        [("RUST_HOME", "/cache/pucc/rustup"), ("CARGO_HOME", "/cache/pucc/cargo"),
          ("PATH", "/cache/pucc/cargo/bin:None")]
    ∧ [(("RUST_HOME" : String), ("/cache/pucc/rustup" : String)),
        ("CARGO_HOME", "/cache/pucc/cargo"),
        ("PATH", "/cache/pucc/cargo/bin:None")] =
      [("RUST_HOME", rustupHome sampleNoPath), ("CARGO_HOME", cargoHome sampleNoPath),
        ("PATH", pathJoin sampleNoPath.system (cargoHome sampleNoPath) "bin"
          ++ env_path_separator sampleNoPath.system ++ "None")] := by
  refine ⟨rfl, by decide, ?_⟩
  exact c10_unset_path_renders_none sampleNoPath
    [("RUST_HOME", "/cache/pucc/rustup"), ("CARGO_HOME", "/cache/pucc/cargo"),
      ("PATH", "/cache/pucc/cargo/bin:None")] rfl (by decide)

end Puccinialin
